import Mathlib

/-!
Verification of the edX/NodeBB signal bridge
(src/client/signals/handlers.py).

The module under study consists of Django signal receivers that react to
lifecycle events (post_save, pre_delete) on five record types and enqueue
at most one asynchronous task per event.  We give a shallow embedding:
each receiver becomes a pure Lean function from the fields it reads to the
list of actions it enqueues (in order).  The task-queue "delay" calls are
reified as constructors of the `Action` type, carrying exactly the
arguments the Python code passes.
-/

namespace NodebbBridge

/-- A Python value appearing in a keyword payload.  The profile handler can
pass the raw value of a nullable column (Python None) as a keyword argument,
so payload values distinguish a string from None. -/
inductive PyVal where
  | none
  | str (s : String)
deriving DecidableEq, Repr

/-- Rendering of a nullable string by a Python format string:
str(None) is the literal text "None". -/
def formatOptStr (o : Option String) : String :=
  match o with
  | Option.none => "None"
  | Option.some s => s

/-- Rendering of a nullable integer by a Python format string. -/
def formatOptNat (o : Option Nat) : String :=
  match o with
  | Option.none => "None"
  | Option.some n => toString n

/-- An opaque edX course key with the three identifier parts the bridge
reads (instance.id.org, instance.id.course, instance.id.run). -/
structure CourseKey where
  org : String
  course : String
  run : String
deriving DecidableEq, Repr

/-- An outbound synchronization action handed to the task queue.  One
constructor per task, carrying the arguments of the corresponding
`task_*.delay(...)` call in handlers.py. -/
inductive Action where
  | createUser (username email joindate : String)
  | updateProfile (username : String) (payload : List (String × PyVal))
  | deleteUser (username : String)
  | createCategory (course_id : CourseKey) (course_display_name : String)
      (name : String)
  | deleteCategory (category_id : Nat)
  | joinGroup (username : String) (course_id : CourseKey)
  | unjoinGroup (username : String) (course_id : CourseKey)
deriving DecidableEq, Repr

/-- The fields of django.contrib.auth.models.User that the bridge reads.
date_joined is kept as epoch seconds; strftime with the %s directive turns
it into the decimal string of that number. -/
structure User where
  username : String
  email : String
  date_joined : Nat
  first_name : String
  last_name : String
deriving DecidableEq, Repr

/-- The fields of student.models.UserProfile that the bridge reads.
name, city and year_of_birth are nullable columns; country is a
django-countries field whose .name attribute is a plain string. -/
structure UserProfile where
  user : User
  name : Option String
  city : Option String
  country_name : String
  year_of_birth : Option Nat
deriving DecidableEq, Repr

/-- The fields of CourseOverview that the bridge reads. -/
structure CourseOverview where
  id : CourseKey
  display_name : String
deriving DecidableEq, Repr

/-- The field of EdxNodeBBCategory that the bridge reads. -/
structure EdxNodeBBCategory where
  nodebb_cid : Nat
deriving DecidableEq, Repr

/-- The fields of CourseEnrollment that the bridge reads (username is a
property delegating to the enrolled user). -/
structure CourseEnrollment where
  username : String
  course_id : CourseKey
  is_active : Bool
deriving DecidableEq, Repr

end NodebbBridge

namespace NodebbBridge

/-- Receiver for post_save on User.  update_fields is None or a frozenset
of field names; the Python guard `update_fields and "last_login" not in
update_fields` is falsy when update_fields is None or empty, and requires
that "last_login" is not a member. -/
def create_and_update_user_on_nodebb (u : User) (created : Bool)
    (update_fields : Option (List String)) : List Action :=
  if created then
    [Action.createUser u.username u.email (toString u.date_joined)]
  else
    match update_fields with
    | Option.none => []
    | Option.some fields =>
      if !fields.isEmpty && !fields.contains "last_login" then
        [Action.updateProfile u.username
          [("fullname", PyVal.str (u.first_name ++ " " ++ u.last_name))]]
      else []

/-- Receiver for post_save on UserProfile.  fullname is passed as the raw
(possibly None) value of instance.name; location and birthday are built by
format strings, so None columns render as the text "None". -/
def update_user_profile_on_nodebb (p : UserProfile) : List Action :=
  [Action.updateProfile p.user.username
    [("fullname", match p.name with
        | Option.none => PyVal.none
        | Option.some s => PyVal.str s),
     ("location", PyVal.str (formatOptStr p.city ++ ", " ++ p.country_name)),
     ("birthday", PyVal.str ("01/01/" ++ formatOptNat p.year_of_birth))]]

/-- Receiver for pre_delete on User. -/
def delete_user_from_nodebb (u : User) : List Action :=
  [Action.deleteUser u.username]

/-- Receiver for post_save on CourseOverview.  The update_fields argument
is accepted but never read by the body. -/
def create_category_on_nodebb (c : CourseOverview) (created : Bool)
    (update_fields : Option (List String)) : List Action :=
  if created then
    [Action.createCategory c.id c.display_name
      (c.display_name ++ "-" ++ c.id.org ++ "-" ++ c.id.course ++ "-"
        ++ c.id.run)]
  else []

/-- Receiver for pre_delete on EdxNodeBBCategory. -/
def delete_category_from_nodebb (cat : EdxNodeBBCategory) : List Action :=
  [Action.deleteCategory cat.nodebb_cid]

/-- Receiver for post_save on CourseEnrollment.  The inactive branch reads
kwargs["created"], which raises KeyError when the key is absent; we model
the created entry of kwargs as an Option and the handler as Except, the
error case standing for the KeyError. -/
def manage_membership_on_nodebb_group (e : CourseEnrollment)
    (kwargs_created : Option Bool) : Except String (List Action) :=
  if e.is_active then
    Except.ok [Action.joinGroup e.username e.course_id]
  else
    match kwargs_created with
    | Option.none => Except.error "KeyError: created"
    | Option.some created =>
      if !e.is_active && !created then
        Except.ok [Action.unjoinGroup e.username e.course_id]
      else
        Except.ok []

/-- The actions actually enqueued by a fallible handler run: none when the
run raised. -/
def actionsOf (r : Except String (List Action)) : List Action :=
  match r with
  | Except.ok l => l
  | Except.error _ => []

/-- A sample course key used by closed statements below. -/
def demoCourseKey : CourseKey :=
  { org := "edX", course := "Demo", run := "2020" }

/-- A sample account used by closed statements below. -/
def aliceUser : User :=
  { username := "alice", email := "a@x.com", date_joined := 1000000000,
    first_name := "Alice", last_name := "Liddell" }

end NodebbBridge

namespace NodebbBridge

/-- Claim C2: on an account save with created = true the handler enqueues
exactly one create-remote-user action whose payload is the username, the
email and the join timestamp rendered as a decimal epoch-seconds string;
in particular, for the account alice with email a@x.com joined at epoch
second 1000000000, the payload is username alice, email a@x.com and
joindate the string 1000000000. -/
theorem account_created_enqueues_create_user :
    (∀ (u : User) (update_fields : Option (List String)),
      create_and_update_user_on_nodebb u true update_fields =
        [Action.createUser u.username u.email (toString u.date_joined)]) ∧
    create_and_update_user_on_nodebb aliceUser true Option.none =
      [Action.createUser "alice" "a@x.com" "1000000000"] := by
  refine ⟨fun u update_fields => rfl, ?_⟩
  rfl

/-- Claim C1, counterexample: an account update whose changed-fields set is
the non-empty set consisting of email together with last_login is not the
singleton set holding only last_login, yet the handler enqueues no action
at all, not the one update-profile action the claim requires. -/
theorem account_update_mixed_last_login_counterexample :
    (["email", "last_login"] : List String) ≠ [] ∧
    ("email" : String) ∈ (["email", "last_login"] : List String) ∧
    ("email" : String) ≠ "last_login" ∧
    (create_and_update_user_on_nodebb aliceUser false
        (Option.some ["email", "last_login"])).length ≠ 1 := by
  refine ⟨by decide, by decide, by decide, ?_⟩
  decide

/-- Claim C1, amended: on an account save with created = false whose
changed-fields set is non-empty and does not contain last_login at all,
the handler enqueues exactly one update-remote-user-profile action, keyed
by the username, with payload fullname equal to the first name, a single
space, and the last name. -/
theorem account_update_enqueues_update_profile (u : User) (fs : List String)
    (hne : fs ≠ []) (hll : "last_login" ∉ fs) :
    create_and_update_user_on_nodebb u false (Option.some fs) =
      [Action.updateProfile u.username
        [("fullname", PyVal.str (u.first_name ++ " " ++ u.last_name))]] := by
  have h1 : fs.isEmpty = false := by
    cases fs with
    | nil => exact absurd rfl hne
    | cons a t => rfl
  simp only [create_and_update_user_on_nodebb, h1]
  simp [hll]

/-- Witness for the amended Claim C1 at a concrete input. -/
theorem account_update_enqueues_update_profile_witness :
    create_and_update_user_on_nodebb aliceUser false (Option.some ["email"]) =
      [Action.updateProfile "alice" [("fullname", PyVal.str "Alice Liddell")]] := by
  have h := account_update_enqueues_update_profile aliceUser ["email"]
    (by decide) (by decide)
  simpa [aliceUser] using h

/-- Claim C6: on an account save with created = false, when every changed
field is last_login (so the set is empty or exactly the last_login
singleton), or when the changed-fields set is absent, no action is
enqueued. -/
theorem account_update_login_only_no_action (u : User) (fs : List String)
    (h : ∀ x ∈ fs, x = "last_login") :
    create_and_update_user_on_nodebb u false (Option.some fs) = [] ∧
    create_and_update_user_on_nodebb u false Option.none = [] := by
  refine ⟨?_, rfl⟩
  cases fs with
  | nil => rfl
  | cons a t =>
    have ha : a = "last_login" := h a (List.mem_cons_self a t)
    subst ha
    simp [create_and_update_user_on_nodebb]

/-- Witness for Claim C6 at a concrete input. -/
theorem account_update_login_only_no_action_witness :
    create_and_update_user_on_nodebb aliceUser false
        (Option.some ["last_login"]) = [] ∧
    create_and_update_user_on_nodebb aliceUser false Option.none = [] :=
  account_update_login_only_no_action aliceUser ["last_login"]
    (by intro x hx; simpa using hx)

/-- Claim C3: on an enrollment save delivered with its created flag, an
active enrollment enqueues exactly one join-remote-group action with the
username and course id; an inactive enrollment that is not newly created
enqueues exactly one unjoin-remote-group action with the username and
course id; an inactive, newly created enrollment enqueues nothing. -/
theorem enrollment_save_membership (e : CourseEnrollment) (created : Bool) :
    manage_membership_on_nodebb_group e (Option.some created) =
      Except.ok
        (if e.is_active then
          [Action.joinGroup e.username e.course_id]
        else if created then []
        else [Action.unjoinGroup e.username e.course_id]) := by
  unfold manage_membership_on_nodebb_group
  cases ha : e.is_active with
  | true => simp
  | false => cases created with
    | true => simp [ha]
    | false => simp [ha]

/-- Claim C4: on every profile save, whether the row was created or
updated, the handler enqueues exactly one update-remote-user-profile
action keyed by the owning accounts username, with fullname the profiles
display name, location the city followed by a comma, a space and the
country name, and birthday the text 01/01/ followed by the birth year. -/
theorem profile_save_enqueues_update_profile (u : User) (nm city : String)
    (cn : String) (yr : Nat) :
    (∀ p : UserProfile, (update_user_profile_on_nodebb p).length = 1) ∧
    update_user_profile_on_nodebb
        { user := u, name := Option.some nm, city := Option.some city,
          country_name := cn, year_of_birth := Option.some yr } =
      [Action.updateProfile u.username
        [("fullname", PyVal.str nm),
         ("location", PyVal.str (city ++ ", " ++ cn)),
         ("birthday", PyVal.str ("01/01/" ++ toString yr))]] :=
  ⟨fun p => rfl, rfl⟩

/-- Claim C5: on a course save with created = true, exactly one
create-remote-category action is enqueued carrying the course identifier,
the display name, and a name equal to the display name, organization,
course and run identifiers joined by hyphens; on a course save with
created = false, no action is enqueued. -/
theorem course_save_category (c : CourseOverview)
    (update_fields : Option (List String)) :
    create_category_on_nodebb c true update_fields =
      [Action.createCategory c.id c.display_name
        (c.display_name ++ "-" ++ c.id.org ++ "-" ++ c.id.course ++ "-"
          ++ c.id.run)] ∧
    create_category_on_nodebb c false update_fields = [] :=
  ⟨rfl, rfl⟩

/-- Claim C7: on an account pending deletion exactly one delete-remote-user
action keyed by the username is enqueued, and on a category-mapping pending
deletion exactly one delete-remote-category action carrying the stored
external category id is enqueued. -/
theorem pre_delete_enqueues_deletion (u : User) (cat : EdxNodeBBCategory) :
    delete_user_from_nodebb u = [Action.deleteUser u.username] ∧
    delete_category_from_nodebb cat = [Action.deleteCategory cat.nodebb_cid] :=
  ⟨rfl, rfl⟩

/-- Claim C8: no single invocation of any handler of the bridge ever
enqueues two or more actions: every handler run yields at most one
outbound action. -/
theorem every_handler_enqueues_at_most_one (u : User) (created : Bool)
    (update_fields : Option (List String)) (p : UserProfile)
    (c : CourseOverview) (cat : EdxNodeBBCategory) (e : CourseEnrollment)
    (kwargs_created : Option Bool) :
    (create_and_update_user_on_nodebb u created update_fields).length ≤ 1 ∧
    (update_user_profile_on_nodebb p).length ≤ 1 ∧
    (delete_user_from_nodebb u).length ≤ 1 ∧
    (create_category_on_nodebb c created update_fields).length ≤ 1 ∧
    (delete_category_from_nodebb cat).length ≤ 1 ∧
    (actionsOf (manage_membership_on_nodebb_group e kwargs_created)).length
      ≤ 1 := by
  refine ⟨?_, le_refl 1, le_refl 1, ?_, le_refl 1, ?_⟩
  · unfold create_and_update_user_on_nodebb
    cases created with
    | true => simp
    | false =>
      cases update_fields with
      | none => simp
      | some fields =>
        simp only [Bool.false_eq_true, if_false]
        split <;> simp
  · unfold create_category_on_nodebb
    cases created <;> simp
  · unfold manage_membership_on_nodebb_group actionsOf
    cases ha : e.is_active with
    | true => simp
    | false =>
      cases kwargs_created with
      | none => simp
      | some created2 => cases created2 <;> simp [ha]

/-- Claim C9: under the delivery contract of the save signal, which always
supplies the created flag in the keyword arguments, every handler returns
normally; in particular the enrollment handler, the only one whose body
performs a keyword lookup, never hits its KeyError path when the created
key is present. -/
theorem handlers_no_failure_path (e : CourseEnrollment)
    (kwargs_created : Option Bool) (b : Bool)
    (h : kwargs_created = Option.some b) :
    (manage_membership_on_nodebb_group e kwargs_created).isOk = true := by
  subst h
  unfold manage_membership_on_nodebb_group
  cases ha : e.is_active with
  | true => rfl
  | false => cases b <;> simp [ha, Except.isOk, Except.toBool]

/-- Witness for Claim C9 at a concrete input. -/
theorem handlers_no_failure_path_witness :
    (manage_membership_on_nodebb_group
        { username := "alice", course_id := demoCourseKey, is_active := false }
        (Option.some false)).isOk = true :=
  handlers_no_failure_path
    { username := "alice", course_id := demoCourseKey, is_active := false }
    (Option.some false) false rfl

/-- Claim C10: a profile save whose display name, city or birth year is
missing (the column is None) still enqueues exactly one
update-remote-user-profile action; the absent city renders into the
location string as the literal text None, and the absent birth year makes
the birthday the literal text 01/01/None, while an absent display name is
passed through as the None value itself. -/
theorem profile_save_missing_fields (u : User) (nm city : Option String)
    (cn : String) (yr : Option Nat) :
    update_user_profile_on_nodebb
        { user := u, name := Option.none, city := city, country_name := cn,
          year_of_birth := yr } =
      [Action.updateProfile u.username
        [("fullname", PyVal.none),
         ("location", PyVal.str (formatOptStr city ++ ", " ++ cn)),
         ("birthday", PyVal.str ("01/01/" ++ formatOptNat yr))]] ∧
    update_user_profile_on_nodebb
        { user := u, name := nm, city := Option.none, country_name := cn,
          year_of_birth := yr } =
      [Action.updateProfile u.username
        [("fullname", match nm with
            | Option.none => PyVal.none
            | Option.some s => PyVal.str s),
         ("location", PyVal.str ("None, " ++ cn)),
         ("birthday", PyVal.str ("01/01/" ++ formatOptNat yr))]] ∧
    update_user_profile_on_nodebb
        { user := u, name := nm, city := city, country_name := cn,
          year_of_birth := Option.none } =
      [Action.updateProfile u.username
        [("fullname", match nm with
            | Option.none => PyVal.none
            | Option.some s => PyVal.str s),
         ("location", PyVal.str (formatOptStr city ++ ", " ++ cn)),
         ("birthday", PyVal.str "01/01/None")]] :=
  ⟨rfl, rfl, rfl⟩

end NodebbBridge
